import Mathlib

/-!
Shallow embedding of the Market Pulse AI document-retrieval subsystem.

Source files embedded here:
  * `src/rag/service/service.py` — class `RAGService` (`load_index`, `save_index`,
    `add_documents`, `retrieve`, `health_check`);
  * `src/rag/server.py` — Flask handlers `retrieve` and `add_documents`;
  * `src/rag/service/app.py` — Flask handler `retrieve_documents` and
    `matches_metadata`.

Modelling conventions:
  * Embedding vectors are abstracted as integer lists (`Vec`); the
    sentence-transformer model together with the embedding cache
    (`encode_text`, a pure memoisation layer per the cache invariant) is an
    abstract function `encode : String → Vec` threaded through the operations.
  * `faiss.IndexFlatIP` is modelled as the list of stored vectors in insertion
    order; `index.ntotal` is the list length; `index.search(q, n)` is exact
    inner-product search returning the `n` best `(score, position)` pairs in
    descending score order, ties broken by lower position (the deterministic
    tie-break the specification prescribes for the flat index).
  * Filesystem state is a `Disk` record holding the two optional snapshot
    artifacts (`index.faiss`, `documents.json`); serialisation round-trips
    exactly, so save/load are modelled as writing/reading the values.
  * Python dictionaries submitted to `add_documents` are `RawDoc` records of
    the six keys the code reads via `.get`; `content.strip()` truthiness is
    the presence of a non-whitespace character.
  * Operations that count how often the embedding function runs are modelled
    in a `_traced` variant returning the result paired with the number of
    `encode` invocations, read off directly from the source control flow.
-/

namespace RAG

/-- An embedding vector.  The service works with float32 rows; the claims
under verification only use the ordered-ring structure of similarity scores
(comparisons with zero and with each other), so entries are integers, which
the kernel can evaluate on concrete witnesses. -/
abbrev Vec := List ℤ

/-- Inner product of two vectors — the similarity score used by
`faiss.IndexFlatIP` ("Inner product for cosine similarity"). -/
def innerProduct (xs ys : Vec) : ℤ := (List.zipWith (· * ·) xs ys).sum

/-- Ordering on `(score, position)` pairs used by the index search: higher
score first; for equal scores the earlier-inserted (lower) position first. -/
def scoreRel (a b : ℤ × Nat) : Prop := b.1 < a.1 ∨ (a.1 = b.1 ∧ a.2 ≤ b.2)

instance : DecidableRel scoreRel := fun a b => by
  unfold scoreRel; infer_instance

instance : IsTotal (ℤ × Nat) scoreRel where
  total a b := by
    unfold scoreRel
    rcases lt_trichotomy a.1 b.1 with h | h | h
    · exact Or.inr (Or.inl h)
    · rcases Nat.le_total a.2 b.2 with h2 | h2
      · exact Or.inl (Or.inr ⟨h, h2⟩)
      · exact Or.inr (Or.inr ⟨h.symm, h2⟩)
    · exact Or.inl (Or.inl h)

instance : IsTrans (ℤ × Nat) scoreRel where
  trans a b c hab hbc := by
    unfold scoreRel at *
    rcases hab with h1 | ⟨e1, n1⟩
    · rcases hbc with h2 | ⟨e2, _⟩
      · exact Or.inl (h2.trans h1)
      · exact Or.inl (e2 ▸ h1)
    · rcases hbc with h2 | ⟨e2, n2⟩
      · exact Or.inl (e1 ▸ h2)
      · exact Or.inr ⟨e1.trans e2, n1.trans n2⟩

/-- `index.search(query, n)`: exact inner-product search over a flat index.
Scores every stored vector, orders by `scoreRel` (descending score, ties by
insertion position), and returns the best `min n ntotal` rows.  Both callers
in the source pass `n = min(k, index.ntotal)`, which is folded in here. -/
def search (index : List Vec) (q : Vec) (k : Nat) : List (ℤ × Nat) :=
  (((index.enum.map fun p => (innerProduct q p.2, p.1))).insertionSort scoreRel).take
    (min k index.length)

/-- A stored document record: `service.py` `add_documents` builds
`structured_doc` with exactly these six string fields. -/
structure Doc where
  content : String
  module : String
  sub_module : String
  issue_type : String
  sub_issue_type : String
  source : String
deriving DecidableEq

/-- A raw input dictionary as read by `add_documents` via `doc.get(...)`:
each of the six keys the code consults may be absent. -/
structure RawDoc where
  content : Option String := none
  module : Option String := none
  sub_module : Option String := none
  issue_type : Option String := none
  sub_issue_type : Option String := none
  source : Option String := none
deriving DecidableEq

/-- In-memory state of `RAGService`: the FAISS index (list of vectors in
insertion order; `ntotal` = length) and the parallel `documents` list. -/
structure RAGState where
  index : List Vec
  documents : List Doc
deriving DecidableEq

/-- Durable state: the two snapshot artifacts at `index_path` and
`documents_path`; `none` models a missing (or unreadable) file. -/
structure Disk where
  index_file : Option (List Vec)
  documents_file : Option (List Doc)
deriving DecidableEq

/-- A disk with neither artifact present. -/
def emptyDisk : Disk := ⟨none, none⟩

/-- `RAGService.load_index` (service.py lines 59–80): when both files exist
they are read back; otherwise — including the `except` fallback when reading
fails — a fresh `IndexFlatIP` and empty document list are created. -/
def load_index (disk : Disk) : RAGState :=
  match disk.index_file, disk.documents_file with
  | some vecs, some docs => ⟨vecs, docs⟩
  | _, _ => ⟨[], []⟩

/-- `RAGService.save_index` (service.py lines 82–99): writes the index and the
document list, overwriting any prior snapshot. -/
def save_index (st : RAGState) : Disk := ⟨some st.index, some st.documents⟩

/-- The validity test of the ingestion loop: `content = doc.get('content', '')`
followed by `if content.strip():` — the stripped string is truthy exactly when
some character of the content is non-whitespace. -/
def isValidDoc (d : RawDoc) : Bool :=
  (d.content.getD "").data.any fun c => !c.isWhitespace

/-- The `structured_doc` record built for a kept document (service.py lines
197–205): the original (unstripped) content plus the classification fields
with their `.get` defaults — `module` defaults to `"Other"`, the other three
classification fields to `""`, and `source` to `"Unknown"`. -/
def structuredDoc (d : RawDoc) : Doc :=
  { content := d.content.getD ""
    module := d.module.getD "Other"
    sub_module := d.sub_module.getD ""
    issue_type := d.issue_type.getD ""
    sub_issue_type := d.sub_issue_type.getD ""
    source := d.source.getD "Unknown" }

/-- The `valid_documents` list accumulated by the ingestion loop. -/
def validDocuments (docs : List RawDoc) : List Doc :=
  (docs.filter isValidDoc).map structuredDoc

/-- The `embeddings` list accumulated by the ingestion loop: one
`encode_text(content)` call per kept document. -/
def batchEmbeddings (encode : String → Vec) (docs : List RawDoc) : List Vec :=
  (docs.filter isValidDoc).map fun d => encode (d.content.getD "")

/-- `RAGService.add_documents` (service.py lines 179–225) acting on the pair
(in-memory state, disk).  The loop skips empty/whitespace-only content and
builds `embeddings` and `valid_documents` in lockstep; `if embeddings:` guards
the mutation, so an all-skipped batch changes nothing; otherwise the vectors
are appended to the index, the structured records to `documents`, and
`save_index` persists the new state.  The Python method returns `None`. -/
def add_documents (encode : String → Vec) (docs : List RawDoc)
    (p : RAGState × Disk) : RAGState × Disk :=
  let embeddings := batchEmbeddings encode docs
  if embeddings.isEmpty then p
  else
    let st : RAGState := ⟨p.1.index ++ embeddings, p.1.documents ++ validDocuments docs⟩
    (st, save_index st)

/-- A retrieval result: a copy of the stored document with `score` and `rank`
keys added (service.py lines 250–255). -/
structure RetrievedDoc where
  doc : Doc
  score : ℤ
  rank : Nat
deriving DecidableEq

/-- The result-building loop of `retrieve` (service.py lines 249–256):
`for i, (score, idx) in enumerate(...)`, keeping an entry iff
`idx < len(self.documents) and score > 0`, annotating it with the score and
the 1-based rank `i + 1` (the enumeration index also advances on skipped
entries). -/
def buildResults (documents : List Doc) : List (ℤ × Nat) → Nat → List RetrievedDoc
  | [], _ => []
  | (score, idx) :: rest, i =>
    match documents[idx]? with
    | some doc =>
      if 0 < score then ⟨doc, score, i + 1⟩ :: buildResults documents rest (i + 1)
      else buildResults documents rest (i + 1)
    | none => buildResults documents rest (i + 1)

/-- `RAGService.retrieve` (service.py lines 227–258), traced with the number
of `encode_text` invocations it performs (second component): when
`index.ntotal == 0` it returns `[]` before touching the query embedding
(0 calls); otherwise it encodes the query once and searches with
`min(k, ntotal)`. -/
def retrieve_traced (encode : String → Vec) (query : String) (k : Nat)
    (st : RAGState) : List RetrievedDoc × Nat :=
  if st.index.length = 0 then ([], 0)
  else
    let qe := encode query
    (buildResults st.documents (search st.index qe k) 0, 1)

/-- The result list of `RAGService.retrieve`. -/
def retrieve (encode : String → Vec) (query : String) (k : Nat)
    (st : RAGState) : List RetrievedDoc :=
  (retrieve_traced encode query k st).1

/-- The health report of `RAGService.health_check` (service.py lines 260–273). -/
structure Health where
  status : String
  model : String
  documents_count : Nat
  index_size : Nat
  dimension : Nat
deriving DecidableEq

/-- `RAGService.health_check`: a total function of the state — it
unconditionally reports `status = "healthy"` together with the raw
`len(self.documents)` and `self.index.ntotal` counts (the source guards
`self.index.ntotal if self.index else 0`; after `load_index` the index is
always set, so the guard is the length). -/
def health_check (modelName : String) (dimension : Nat) (st : RAGState) : Health :=
  { status := "healthy"
    model := modelName
    documents_count := st.documents.length
    index_size := st.index.length
    dimension := dimension }

/-- The JSON body of a `/retrieve` request to `server.py`: the two keys the
handler reads, each possibly absent. -/
structure RetrieveRequest where
  query : Option String := none
  k : Option Nat := none
deriving DecidableEq

/-- The Flask handler `retrieve` of `server.py` (lines 46–74): missing JSON
body, missing `query`, or empty `query` (Python falsiness of `data.get`) are
rejected with an error before the service is consulted; otherwise the service
`retrieve` runs with `k = data.get('k', 3)`. -/
def server_retrieve (encode : String → Vec) (data : Option RetrieveRequest)
    (st : RAGState) : Except String (List RetrievedDoc) :=
  match data with
  | none => Except.error "No JSON data provided"
  | some d =>
    match d.query with
    | none => Except.error "Missing query parameter"
    | some q =>
      if q.isEmpty then Except.error "Missing query parameter"
      else Except.ok (retrieve encode q (d.k.getD 3) st)

/-- The JSON body of an `/add_documents` request to `server.py`: the two keys
the handler reads, each possibly absent. -/
structure AddDocumentsRequest where
  documents : Option (List RawDoc) := none
  source : Option String := none
deriving DecidableEq

/-- The Flask handler `add_documents` of `server.py` (lines 78–113), returning
the response together with the (state, disk) pair after the request.  Missing
JSON, or a missing/empty `documents` list (Python falsiness of `data.get`),
are rejected first.  Every request that passes validation then executes line
103, `rag_service.add_documents(documents, default_source=source)`; the only
`add_documents` in the source is `service.py:179`,
`def add_documents(self, documents)`, which accepts no `default_source`
keyword, so the call raises `TypeError` before the method body runs, the
handler's `except` branch turns it into an error response, and the state is
left unchanged.  The success branch of lines 105–112 — whose message would
interpolate the raw `len(documents)` — is unreachable. -/
def server_add_documents (data : Option AddDocumentsRequest)
    (p : RAGState × Disk) : Except String (String × Nat) × (RAGState × Disk) :=
  match data with
  | none => (Except.error "No JSON data provided", p)
  | some d =>
    match d.documents with
    | none => (Except.error "Missing documents parameter", p)
    | some docs =>
      if docs.isEmpty then (Except.error "Missing documents parameter", p)
      else
        (Except.error
          "TypeError: add_documents got an unexpected keyword argument default_source",
          p)

/-- States reachable by the service together with its persistence files: boot
from an empty disk (`__init__` calls `load_index`), ingest a batch, or restart
the process and reload whatever the disk holds. -/
inductive Reachable : RAGState × Disk → Prop where
  | boot : Reachable (load_index emptyDisk, emptyDisk)
  | add (encode : String → Vec) (docs : List RawDoc) (p : RAGState × Disk) :
      Reachable p → Reachable (add_documents encode docs p)
  | reload (p : RAGState × Disk) : Reachable p → Reachable (load_index p.2, p.2)

/-- In-memory state of `service/app.py`: module-level `index`, `documents`
(plain strings) and `metadata` (string-keyed dictionaries, modelled as
association lists). -/
structure AppState where
  index : List Vec
  documents : List String
  metadata : List (List (String × String))
deriving DecidableEq

/-- A result row of `app.py` `retrieve_documents`. -/
structure AppResult where
  id : Nat
  score : ℤ
  document : String
  metadata : List (String × String)
deriving DecidableEq

/-- `matches_metadata` of `app.py` (lines 216–221): every filter key must be
present in the document metadata with an equal value. -/
def matches_metadata (docMeta filterMeta : List (String × String)) : Bool :=
  filterMeta.all fun kv => docMeta.lookup kv.1 == some kv.2

/-- The result loop of `app.py` `retrieve_documents` (lines 168–183): for each
`(score, idx)` in order, entries with positive score are turned into a result
row (`documents[idx] if idx < len(documents) else ""`, same for metadata),
appended when the filter is absent or matches, and the loop `break`s once `k`
results are collected.  (The `idx != -1` guard cannot fire: the search is
called with `min(k, ntotal)` rows, so every returned position is valid.) -/
def appLoop (docs : List String) (meta : List (List (String × String)))
    (filt : List (String × String)) (k : Nat) :
    List (ℤ × Nat) → List AppResult → List AppResult
  | [], acc => acc
  | (score, idx) :: rest, acc =>
    if 0 < score then
      let result : AppResult :=
        ⟨idx, score, (docs[idx]?).getD "", (meta[idx]?).getD []⟩
      let acc' := if filt.isEmpty || matches_metadata result.metadata filt
        then acc ++ [result] else acc
      if k ≤ acc'.length then acc'
      else appLoop docs meta filt k rest acc'
    else appLoop docs meta filt k rest acc

/-- `retrieve_documents` of `app.py` (lines 139–199) after its request
validation, traced with the number of embedding calls (second component): the
query is embedded and normalised FIRST (`model.encode([query])`,
`faiss.normalize_L2`) and only then, under the lock, is the empty-index case
checked and the empty result list returned — so even that path performs one
embedding invocation. -/
def app_retrieve_traced (encode : String → Vec) (query : String) (k : Nat)
    (filt : List (String × String)) (st : AppState) : List AppResult × Nat :=
  let qe := encode query
  if st.index.length = 0 then ([], 1)
  else (appLoop st.documents st.metadata filt k (search st.index qe k) [], 1)

/-- A concrete one-dimensional embedding function used to instantiate
witnesses. -/
def enc0 : String → Vec := fun _ => [(1 : ℤ)]

theorem search_length (index : List Vec) (q : Vec) (k : Nat) :
    (search index q k).length = min k index.length := by
  unfold search
  rw [List.length_take, List.length_insertionSort, List.length_map, List.enum_length]
  omega

theorem search_sorted (index : List Vec) (q : Vec) (k : Nat) :
    (search index q k).Pairwise scoreRel :=
  List.Pairwise.sublist (List.take_sublist _ _) (List.sorted_insertionSort scoreRel _)

theorem search_mem_idx (index : List Vec) (q : Vec) (k : Nat) :
    ∀ p ∈ search index q k, p.2 < index.length := by
  intro p hp
  unfold search at hp
  have hp2 := List.mem_of_mem_take hp
  rw [List.mem_insertionSort] at hp2
  obtain ⟨e, he, hpe⟩ := List.mem_map.mp hp2
  have h1 : index[e.1]? = some e.2 := List.mem_enum_iff_getElem?.mp he
  obtain ⟨h2, -⟩ := List.getElem?_eq_some.mp h1
  rw [← hpe]
  exact h2

theorem buildResults_length_le (documents : List Doc) :
    ∀ (hits : List (ℤ × Nat)) (i : Nat),
      (buildResults documents hits i).length ≤ hits.length := by
  intro hits
  induction hits with
  | nil => intro i; simp [buildResults]
  | cons h t ih =>
    intro i
    obtain ⟨score, idx⟩ := h
    simp only [buildResults]
    cases hd : documents[idx]? with
    | none => exact (ih (i + 1)).trans (Nat.le_succ _)
    | some d =>
      by_cases hs : 0 < score
      · simpa [hs] using ih (i + 1)
      · simp only [hs, if_false]
        exact (ih (i + 1)).trans (Nat.le_succ _)

theorem mem_buildResults (documents : List Doc) :
    ∀ (hits : List (ℤ × Nat)) (i : Nat) (r : RetrievedDoc),
      r ∈ buildResults documents hits i → 0 < r.score ∧ ∃ p ∈ hits, r.score = p.1 := by
  intro hits
  induction hits with
  | nil => intro i r hr; simp [buildResults] at hr
  | cons h t ih =>
    intro i r hr
    obtain ⟨score, idx⟩ := h
    simp only [buildResults] at hr
    cases hd : documents[idx]? with
    | none =>
      rw [hd] at hr
      obtain ⟨h1, p, hp, h2⟩ := ih (i + 1) r hr
      exact ⟨h1, p, List.mem_cons_of_mem _ hp, h2⟩
    | some d =>
      rw [hd] at hr
      dsimp only at hr
      by_cases hs : 0 < score
      · rw [if_pos hs] at hr
        rcases List.mem_cons.mp hr with h1 | h1
        · subst h1
          exact ⟨hs, (score, idx), List.mem_cons_self _ _, rfl⟩
        · obtain ⟨h1, p, hp, h2⟩ := ih (i + 1) r h1
          exact ⟨h1, p, List.mem_cons_of_mem _ hp, h2⟩
      · rw [if_neg hs] at hr
        obtain ⟨h1, p, hp, h2⟩ := ih (i + 1) r hr
        exact ⟨h1, p, List.mem_cons_of_mem _ hp, h2⟩

theorem buildResults_pairwise (documents : List Doc) :
    ∀ (hits : List (ℤ × Nat)) (i : Nat),
      hits.Pairwise (fun a b => b.1 ≤ a.1) →
      (buildResults documents hits i).Pairwise (fun r s => s.score ≤ r.score) := by
  intro hits
  induction hits with
  | nil => intro i _; simp [buildResults]
  | cons h t ih =>
    intro i hp
    obtain ⟨score, idx⟩ := h
    rw [List.pairwise_cons] at hp
    simp only [buildResults]
    cases hd : documents[idx]? with
    | none => exact ih (i + 1) hp.2
    | some d =>
      dsimp only
      by_cases hs : 0 < score
      · rw [if_pos hs, List.pairwise_cons]
        refine ⟨?_, ih (i + 1) hp.2⟩
        intro r hr
        obtain ⟨_, p, hpmem, hpe⟩ := mem_buildResults documents t (i + 1) r hr
        calc r.score = p.1 := hpe
          _ ≤ score := hp.1 p hpmem
      · rw [if_neg hs]
        exact ih (i + 1) hp.2

theorem buildResults_eq_nil (documents : List Doc) :
    ∀ (hits : List (ℤ × Nat)) (i : Nat), (∀ p ∈ hits, p.1 ≤ 0) →
      buildResults documents hits i = [] := by
  intro hits
  induction hits with
  | nil => intro i _; simp [buildResults]
  | cons h t ih =>
    intro i hnp
    obtain ⟨score, idx⟩ := h
    have hs : ¬0 < score := by
      have := hnp (score, idx) (List.mem_cons_self _ _)
      omega
    simp only [buildResults]
    cases hd : documents[idx]? with
    | none => exact ih (i + 1) fun p hp => hnp p (List.mem_cons_of_mem _ hp)
    | some d =>
      dsimp only
      rw [if_neg hs]
      exact ih (i + 1) fun p hp => hnp p (List.mem_cons_of_mem _ hp)

theorem buildResults_ranks (documents : List Doc) :
    ∀ (hits : List (ℤ × Nat)) (i : Nat),
      (∀ p ∈ hits, p.2 < documents.length) →
      hits.Pairwise (fun a b => b.1 ≤ a.1) →
      (buildResults documents hits i).map (fun r => r.rank)
        = List.range' (i + 1) (buildResults documents hits i).length := by
  intro hits
  induction hits with
  | nil => intro i _ _; simp [buildResults]
  | cons h t ih =>
    intro i hidx hp
    obtain ⟨score, idx⟩ := h
    rw [List.pairwise_cons] at hp
    have hlt : idx < documents.length := hidx (score, idx) (List.mem_cons_self _ _)
    have hd : documents[idx]? = some documents[idx] := List.getElem?_eq_getElem hlt
    simp only [buildResults, hd]
    by_cases hs : 0 < score
    · rw [if_pos hs]
      have ht := ih (i + 1) (fun p hp' => hidx p (List.mem_cons_of_mem _ hp')) hp.2
      simp only [List.map_cons, List.length_cons, ht, List.range'_succ]
    · rw [if_neg hs]
      have hnil : buildResults documents t (i + 1) = [] := by
        apply buildResults_eq_nil
        intro p hpt
        have := hp.1 p hpt
        omega
      rw [hnil]
      simp


theorem load_index_emptyDisk : load_index emptyDisk = ⟨[], []⟩ := rfl

theorem load_index_save_index (st : RAGState) : load_index (save_index st) = st := rfl

theorem batchEmbeddings_length (encode : String → Vec) (docs : List RawDoc) :
    (batchEmbeddings encode docs).length = (docs.filter isValidDoc).length := by
  simp [batchEmbeddings]

theorem validDocuments_length (docs : List RawDoc) :
    (validDocuments docs).length = (docs.filter isValidDoc).length := by
  simp [validDocuments]

/-- Effect of `add_documents` on the two collection lengths: both grow by the
number of valid (non-blank-content) input documents. -/
theorem add_documents_lengths (encode : String → Vec) (docs : List RawDoc)
    (p : RAGState × Disk) :
    (add_documents encode docs p).1.index.length
        = p.1.index.length + (docs.filter isValidDoc).length ∧
      (add_documents encode docs p).1.documents.length
        = p.1.documents.length + (docs.filter isValidDoc).length := by
  unfold add_documents
  by_cases h : (batchEmbeddings encode docs).isEmpty
  · have h0 : (docs.filter isValidDoc).length = 0 := by
      rw [← batchEmbeddings_length encode docs]
      rw [List.isEmpty_iff] at h
      simp [h]
    simp [h, h0]
  · simp [h, batchEmbeddings_length, validDocuments_length]

/-- The alignment invariant, for both the in-memory pair and whatever the
disk would reload to, maintained by every `Reachable` step. -/
theorem reachable_invariant (p : RAGState × Disk) (h : Reachable p) :
    p.1.index.length = p.1.documents.length ∧
      (load_index p.2).index.length = (load_index p.2).documents.length := by
  induction h with
  | boot => exact ⟨rfl, rfl⟩
  | add encode docs q hq ih =>
    have hlen : (add_documents encode docs q).1.index.length
        = (add_documents encode docs q).1.documents.length := by
      obtain ⟨h1, h2⟩ := add_documents_lengths encode docs q
      omega
    refine ⟨hlen, ?_⟩
    by_cases hb : (batchEmbeddings encode docs).isEmpty
    · have hq2 : (add_documents encode docs q).2 = q.2 := by
        unfold add_documents
        simp [hb]
      rw [hq2]
      exact ih.2
    · have hq2 : (add_documents encode docs q).2
          = save_index (add_documents encode docs q).1 := by
        unfold add_documents
        simp [hb]
      rw [hq2, load_index_save_index]
      exact hlen
  | reload q hq ih => exact ⟨ih.2, ih.2⟩

/-! ## Claim theorems -/

/-- C1: in every reachable state of the service — after boot on an empty
disk, after any `add_documents` batch, and after any `load_index` reload
(which the `Reachable.reload` constructor closes over, covering both the
loaded-snapshot and fresh-empty-index cases) — the number of vectors in the
FAISS index equals the number of records in the document store. -/
theorem aligned_of_reachable (p : RAGState × Disk) (h : Reachable p) :
    p.1.index.length = p.1.documents.length :=
  (reachable_invariant p h).1

theorem aligned_of_reachable_witness :
    (add_documents enc0 [⟨some "x", none, none, none, none, none⟩]
          (load_index emptyDisk, emptyDisk)).1.index.length
      = (add_documents enc0 [⟨some "x", none, none, none, none, none⟩]
          (load_index emptyDisk, emptyDisk)).1.documents.length :=
  aligned_of_reachable _ (Reachable.add enc0 _ _ Reachable.boot)

/-- C2 (counterexample): for the batch `[{content: ""}]` the service adds
zero documents, and no added count of 0 (or any count) is reported to the
caller: `RAGService.add_documents` returns `None`, and the `/add_documents`
handler answers with the `TypeError` error response — its call at
`server.py:103` passes a `default_source` keyword the method signature
rejects, so the success message never executes. -/
theorem no_count_reported_on_empty_content :
    (add_documents enc0 [⟨some "", none, none, none, none, none⟩]
        (⟨[], []⟩, emptyDisk)).1.documents.length = 0 ∧
      (server_add_documents
          (some ⟨some [⟨some "", none, none, none, none, none⟩], some "A"⟩)
          (⟨[], []⟩, emptyDisk)).1
        = Except.error
            "TypeError: add_documents got an unexpected keyword argument default_source" :=
  ⟨by decide, rfl⟩

/-- C2 (amended): `RAGService.add_documents` returns no count; the number of
documents actually appended is the input length minus the skipped
empty/whitespace-content entries (zero for `[{content:""}]`); and no added
count is ever reported to the caller: every `/add_documents` request with a
non-empty `documents` list gets the `TypeError` error response from the
handler's `default_source` call, with the state unchanged — the success
message that would have reported the raw input length is unreachable. -/
theorem added_count_and_handler_error (encode : String → Vec)
    (docs : List RawDoc) (p : RAGState × Disk) (src : Option String)
    (h : docs.isEmpty = false) :
    (add_documents encode docs p).1.documents.length
        = p.1.documents.length + (validDocuments docs).length ∧
      server_add_documents (some ⟨some docs, src⟩) p
        = (Except.error
            "TypeError: add_documents got an unexpected keyword argument default_source",
            p) := by
  constructor
  · rw [validDocuments_length]
    exact (add_documents_lengths encode docs p).2
  · unfold server_add_documents
    simp [h]

theorem added_count_and_handler_error_witness :
    (([⟨some "", none, none, none, none, none⟩] : List RawDoc).isEmpty = false) ∧
      ((add_documents enc0 [⟨some "", none, none, none, none, none⟩]
            (⟨[], []⟩, emptyDisk)).1.documents.length
          = (⟨[], []⟩ : RAGState).documents.length
            + (validDocuments [⟨some "", none, none, none, none, none⟩]).length ∧
        server_add_documents
            (some ⟨some [⟨some "", none, none, none, none, none⟩], some "A"⟩)
            (⟨[], []⟩, emptyDisk)
          = (Except.error
              "TypeError: add_documents got an unexpected keyword argument default_source",
              (⟨[], []⟩, emptyDisk))) :=
  ⟨by decide,
    added_count_and_handler_error enc0 [⟨some "", none, none, none, none, none⟩]
      (⟨[], []⟩, emptyDisk) (some "A") (by decide)⟩

/-- C9: saving a state and loading it back reconstructs an index/document
pair identical to the saved one — in particular of identical index size and
with content-identical document records. -/
theorem save_load_roundtrip (st : RAGState) :
    load_index (save_index st) = st ∧
      (load_index (save_index st)).index.length = st.index.length ∧
      (load_index (save_index st)).documents = st.documents :=
  ⟨rfl, rfl, rfl⟩

/-- C10: a batch in which every document has empty or whitespace-only
content (no character of any content is non-whitespace) leaves the whole
observable state — vector index, document store and persisted snapshot —
unchanged, because `if embeddings:` guards the mutation and the
`save_index` call. -/
theorem all_blank_batch_is_noop (encode : String → Vec) (docs : List RawDoc)
    (p : RAGState × Disk)
    (h : docs.Forall fun d => ((d.content.getD "").data.all fun c => c.isWhitespace) = true) :
    add_documents encode docs p = p := by
  rw [List.forall_iff_forall_mem] at h
  have hfilter : docs.filter isValidDoc = [] := by
    rw [List.filter_eq_nil_iff]
    intro d hd
    have hall := h d hd
    rw [List.all_eq_true] at hall
    unfold isValidDoc
    rw [List.any_eq_true]
    push_neg
    intro c hc
    simp [hall c hc]
  unfold add_documents
  have hb : (batchEmbeddings encode docs).isEmpty = true := by
    unfold batchEmbeddings
    rw [hfilter]
    rfl
  simp [hb]

theorem all_blank_batch_is_noop_witness :
    (([⟨some "  ", none, none, none, none, none⟩,
        ⟨none, none, none, none, none, some "S"⟩] : List RawDoc).Forall
      fun d => ((d.content.getD "").data.all fun c => c.isWhitespace) = true) ∧
      add_documents enc0
          [⟨some "  ", none, none, none, none, none⟩,
            ⟨none, none, none, none, none, some "S"⟩]
          (⟨[[1]], [⟨"a", "Other", "", "", "", "Unknown"⟩]⟩,
            save_index ⟨[[1]], [⟨"a", "Other", "", "", "", "Unknown"⟩]⟩)
        = (⟨[[1]], [⟨"a", "Other", "", "", "", "Unknown"⟩]⟩,
            save_index ⟨[[1]], [⟨"a", "Other", "", "", "", "Unknown"⟩]⟩) :=
  ⟨by decide, all_blank_batch_is_noop enc0 _ _ (by decide)⟩

theorem scoreRel_score_le {a b : ℤ × Nat} (h : scoreRel a b) : b.1 ≤ a.1 := by
  rcases h with h | ⟨h, -⟩
  · exact le_of_lt h
  · exact le_of_eq h.symm

/-- C3 (counterexample): the `/retrieve` implementation of `service/app.py`
embeds the query before checking for an empty index: on an empty index it
does return an empty result list, but only after one embedding invocation,
so the query embedding function is not avoided in that cited code path. -/
theorem app_retrieve_embeds_on_empty_index :
    app_retrieve_traced enc0 "x" 5 [] ⟨[], [], []⟩ = ([], 1) := by decide

/-- C3 (amended): retrieval on an empty index returns an empty result list,
never an error, in both cited implementations; `RAGService.retrieve` returns
it before the query embedding is computed (zero embedding calls), while the
`app.py` endpoint first embeds the query (one call) and then returns the
empty list. -/
theorem retrieve_empty_index (encode : String → Vec) (q : String) (k : Nat) :
    (∀ st : RAGState, st.index.length = 0 → retrieve_traced encode q k st = ([], 0)) ∧
      (∀ (filt : List (String × String)) (ast : AppState), ast.index.length = 0 →
        app_retrieve_traced encode q k filt ast = ([], 1)) := by
  constructor
  · intro st h
    unfold retrieve_traced
    simp [h]
  · intro filt ast h
    unfold app_retrieve_traced
    simp [h]

theorem retrieve_empty_index_witness :
    retrieve_traced enc0 "y" 4 ⟨[], []⟩ = ([], 0) ∧
      app_retrieve_traced enc0 "y" 4 [("m", "v")] ⟨[], [], []⟩ = ([], 1) :=
  ⟨(retrieve_empty_index enc0 "y" 4).1 _ rfl,
    (retrieve_empty_index enc0 "y" 4).2 _ _ rfl⟩

/-- C4: on a state where the index and the document store are aligned, the
result list of `retrieve` is sorted by non-increasing score, the underlying
index search breaks score ties by lower (earlier-inserted) position, and the
`rank` annotations are exactly `1, 2, ...` down the result list (rank 1 for
the best match). -/
theorem retrieve_sorted_ranked (encode : String → Vec) (q : String) (k : Nat)
    (st : RAGState) (h : st.index.length = st.documents.length) :
    ((retrieve encode q k st).map fun r => r.score).Pairwise (fun a b => b ≤ a) ∧
      (retrieve encode q k st).map (fun r => r.rank)
        = List.range' 1 (retrieve encode q k st).length ∧
      (search st.index (encode q) k).Pairwise scoreRel := by
  have hdesc : (search st.index (encode q) k).Pairwise (fun a b => b.1 ≤ a.1) :=
    (search_sorted st.index (encode q) k).imp scoreRel_score_le
  have hidx : ∀ p ∈ search st.index (encode q) k, p.2 < st.documents.length :=
    fun p hp => h ▸ search_mem_idx st.index (encode q) k p hp
  refine ⟨?_, ?_, search_sorted _ _ _⟩
  · unfold retrieve retrieve_traced
    by_cases h0 : st.index.length = 0
    · simp [h0]
    · simp only [h0, if_false]
      rw [List.pairwise_map]
      exact buildResults_pairwise _ _ _ hdesc
  · unfold retrieve retrieve_traced
    by_cases h0 : st.index.length = 0
    · simp [h0]
    · simp only [h0, if_false]
      exact buildResults_ranks _ _ _ hidx hdesc

theorem retrieve_sorted_ranked_witness :
    ((⟨[[1], [1]], [⟨"a", "Other", "", "", "", "Unknown"⟩,
        ⟨"b", "Other", "", "", "", "Unknown"⟩]⟩ : RAGState).index.length
      = (⟨[[1], [1]], [⟨"a", "Other", "", "", "", "Unknown"⟩,
        ⟨"b", "Other", "", "", "", "Unknown"⟩]⟩ : RAGState).documents.length) ∧
      (((retrieve enc0 "q" 3 ⟨[[1], [1]], [⟨"a", "Other", "", "", "", "Unknown"⟩,
          ⟨"b", "Other", "", "", "", "Unknown"⟩]⟩).map fun r => r.score).Pairwise
        (fun a b => b ≤ a) ∧
      (retrieve enc0 "q" 3 ⟨[[1], [1]], [⟨"a", "Other", "", "", "", "Unknown"⟩,
          ⟨"b", "Other", "", "", "", "Unknown"⟩]⟩).map (fun r => r.rank)
        = List.range' 1 (retrieve enc0 "q" 3 ⟨[[1], [1]],
            [⟨"a", "Other", "", "", "", "Unknown"⟩,
              ⟨"b", "Other", "", "", "", "Unknown"⟩]⟩).length ∧
      (search (⟨[[1], [1]], [⟨"a", "Other", "", "", "", "Unknown"⟩,
          ⟨"b", "Other", "", "", "", "Unknown"⟩]⟩ : RAGState).index
        (enc0 "q") 3).Pairwise scoreRel) :=
  ⟨rfl, retrieve_sorted_ranked enc0 "q" 3 _ rfl⟩

/-- C5: `retrieve` returns at most `min k n` results on an index of size `n`
(`k` is clamped to the index size before the search, and the result loop can
only shrink that), and every returned result has a strictly positive score. -/
theorem retrieve_clamped_and_positive (encode : String → Vec) (q : String)
    (k : Nat) (st : RAGState) :
    (retrieve encode q k st).length ≤ min k st.index.length ∧
      (retrieve encode q k st).Forall fun r => 0 < r.score := by
  unfold retrieve retrieve_traced
  by_cases h : st.index.length = 0
  · simp [h, List.Forall]
  · simp only [h, if_false]
    constructor
    · have h1 := buildResults_length_le st.documents (search st.index (encode q) k) 0
      rw [search_length] at h1
      exact h1
    · rw [List.forall_iff_forall_mem]
      intro r hr
      exact (mem_buildResults _ _ _ r hr).1

/-- C6 (counterexample): `RAGService.retrieve` performs no empty-query
validation: with one stored document, the empty query is embedded (one
embedding call) and searched like any other query, returning a normal
result list rather than an error. -/
theorem service_accepts_empty_query :
    retrieve_traced enc0 "" 3 ⟨[[1]], [⟨"c", "Other", "", "", "", "Unknown"⟩]⟩
      = ([⟨⟨"c", "Other", "", "", "", "Unknown"⟩, 1, 1⟩], 1) := by decide

/-- C6 (amended): rejection of empty query text happens in the HTTP layer:
the `server.py` handler returns an error when `query` is missing or empty,
before the service is consulted; `RAGService.retrieve` itself embeds an
empty query like any normal query (one embedding call) whenever the index
is non-empty. -/
theorem empty_query_rejected_at_server (encode : String → Vec) (k? : Option Nat)
    (st : RAGState) :
    server_retrieve encode (some ⟨none, k?⟩) st = Except.error "Missing query parameter" ∧
      server_retrieve encode (some ⟨some "", k?⟩) st = Except.error "Missing query parameter" ∧
      ∀ k : Nat, st.index.length ≠ 0 → (retrieve_traced encode "" k st).2 = 1 := by
  refine ⟨rfl, rfl, ?_⟩
  intro k h
  unfold retrieve_traced
  simp [h]

theorem empty_query_rejected_at_server_witness :
    server_retrieve enc0 (some ⟨some "", some 2⟩)
        ⟨[[1]], [⟨"c", "Other", "", "", "", "Unknown"⟩]⟩
      = Except.error "Missing query parameter" ∧
      (retrieve_traced enc0 "" 2 ⟨[[1]], [⟨"c", "Other", "", "", "", "Unknown"⟩]⟩).2 = 1 :=
  ⟨(empty_query_rejected_at_server enc0 (some 2) _).2.1,
    (empty_query_rejected_at_server enc0 (some 2) _).2.2 2 (by decide)⟩

/-- C7 (counterexample): ingesting `{content: "x"}` with every
classification field missing stores `module = "Other"` — not the empty
string — and `source = "Unknown"`; `RAGService.add_documents` has no
`default_source` parameter through which a caller-supplied default could
arrive (`server.py` and `test_all_fixes.py` nevertheless pass one). -/
theorem missing_module_stored_as_Other :
    (add_documents enc0 [⟨some "x", none, none, none, none, none⟩]
        (⟨[], []⟩, emptyDisk)).1.documents
      = [⟨"x", "Other", "", "", "", "Unknown"⟩] ∧ ("Other" : String) ≠ "" :=
  ⟨by decide, by decide⟩

/-- C7 (amended): for an ingested document with non-empty content, missing
`sub_module`, `issue_type` and `sub_issue_type` are stored as the empty
string, a missing `module` as `"Other"`, and a missing `source` as
`"Unknown"` unconditionally (`add_documents` accepts no `default_source`). -/
theorem classification_field_defaults (encode : String → Vec) (c : String)
    (p : RAGState × Disk) (h : (c.data.any fun ch => !ch.isWhitespace) = true) :
    (add_documents encode [⟨some c, none, none, none, none, none⟩] p).1.documents
      = p.1.documents ++ [⟨c, "Other", "", "", "", "Unknown"⟩] := by
  have hv : isValidDoc ⟨some c, none, none, none, none, none⟩ = true := by
    unfold isValidDoc
    simpa using h
  have hb : (batchEmbeddings encode [⟨some c, none, none, none, none, none⟩]).isEmpty
      = false := by
    unfold batchEmbeddings
    simp [List.filter, hv]
  unfold add_documents
  simp [hb, validDocuments, List.filter, hv, structuredDoc]

theorem classification_field_defaults_witness :
    (("x".data.any fun ch => !ch.isWhitespace) = true) ∧
      (add_documents enc0 [⟨some "x", none, none, none, none, none⟩]
          (⟨[], []⟩, emptyDisk)).1.documents
        = ([] : List Doc) ++ [⟨"x", "Other", "", "", "", "Unknown"⟩] :=
  ⟨by decide, classification_field_defaults enc0 "x" _ (by decide)⟩

/-- C8 (counterexample): on a state whose index holds one vector while the
document store is empty, `health_check` still reports `status = "healthy"`;
the divergence is never detected or flagged as an unhealthy status. -/
theorem health_healthy_despite_divergence :
    (health_check "all-MiniLM-L6-v2" 384 ⟨[[1]], []⟩).status = "healthy" ∧
      (health_check "all-MiniLM-L6-v2" 384 ⟨[[1]], []⟩).documents_count
        ≠ (health_check "all-MiniLM-L6-v2" 384 ⟨[[1]], []⟩).index_size :=
  ⟨rfl, by decide⟩

/-- C8 (amended): `health_check` never throws — it is a total function of the
service state — and it surfaces `documents_count` and `index_size` as
separate reported fields, so a divergence is observable by comparing them;
but even on a divergent state the status field remains `"healthy"`: no
unhealthy status is ever reported. -/
theorem health_check_total_reports_counts (modelName : String) (dim : Nat)
    (st : RAGState) (h : st.documents.length ≠ st.index.length) :
    (health_check modelName dim st).status = "healthy" ∧
      (health_check modelName dim st).documents_count
        ≠ (health_check modelName dim st).index_size ∧
      (health_check modelName dim st).documents_count = st.documents.length ∧
      (health_check modelName dim st).index_size = st.index.length :=
  ⟨rfl, h, rfl, rfl⟩

theorem health_check_total_reports_counts_witness :
    ((⟨[[1]], []⟩ : RAGState).documents.length ≠ (⟨[[1]], []⟩ : RAGState).index.length) ∧
      ((health_check "m" 384 ⟨[[1]], []⟩).status = "healthy" ∧
        (health_check "m" 384 ⟨[[1]], []⟩).documents_count
          ≠ (health_check "m" 384 ⟨[[1]], []⟩).index_size ∧
        (health_check "m" 384 ⟨[[1]], []⟩).documents_count
          = (⟨[[1]], []⟩ : RAGState).documents.length ∧
        (health_check "m" 384 ⟨[[1]], []⟩).index_size
          = (⟨[[1]], []⟩ : RAGState).index.length) :=
  ⟨by decide, health_check_total_reports_counts "m" 384 _ (by decide)⟩

end RAG
